import Mathlib

/-!
# Verification of ScreenMonitorMCP against its specification

Shallow embedding of the core modules of the ScreenMonitorMCP v2 repository:

* `core/gaming_mode.py` — `FrameSkipper`, `AdaptiveQualityController`, `FrameMetrics`
* `core/mcp_server.py` — the image resource cache (`_add_to_cache`, `_image_cache`)
* `core/mcp_websocket_server.py` — the WebSocket `resources/read` branch and
  `_send_binary_resource`
* `core/mcp_sse_server.py` — the SSE `resources/read` branch and the auto-push producer
* `core/screen_capture.py` — `ScreenCapture.capture_screen` and its short-TTL cache
* `core/window_capture.py` — `find_window_by_title`, and `capture_game_window` from
  `core/mcp_server.py`

Python floats are modelled as rationals (`ℚ`), Python ints as `ℤ`/`ℕ`, byte strings
as `List ℕ` with an explicit `< 256` bound where it matters, Python `str` as `List Char`
or `String`, and `dict`/`OrderedDict` as association lists.  Wall-clock time
(`time.time()`) is passed in explicitly as a rational argument.
-/

namespace ScreenMonitor

/-! ## FrameSkipper (core/gaming_mode.py, lines 277-321)

The Python object holds `target_fps`, `frame_interval = 1.0 / target_fps`,
`max_skip`, `skip_threshold_ms / 1000.0`, `last_frame_time` and
`consecutive_skips`.  `time.time()` is passed explicitly. -/

structure FrameSkipper where
  target_fps : ℚ
  frame_interval : ℚ
  max_skip : ℕ
  skip_threshold : ℚ      -- seconds (the constructor divides the ms argument by 1000)
  last_frame_time : ℚ
  consecutive_skips : ℕ
  deriving Repr, DecidableEq

/-- `FrameSkipper.__init__(target_fps, max_skip, skip_threshold_ms)` at time `now`. -/
def mkFrameSkipper (target_fps : ℚ) (max_skip : ℕ) (skip_threshold_ms : ℚ)
    (now : ℚ) : FrameSkipper :=
  { target_fps := target_fps
    frame_interval := 1 / target_fps
    max_skip := max_skip
    skip_threshold := skip_threshold_ms / 1000
    last_frame_time := now
    consecutive_skips := 0 }

/-- `FrameSkipper.should_skip_frame` at time `now`: returns the boolean result and
the updated object. -/
def FrameSkipper.should_skip_frame (s : FrameSkipper) (now : ℚ) : Bool × FrameSkipper :=
  let elapsed := now - s.last_frame_time
  if elapsed < s.frame_interval + s.skip_threshold then
    (false, { s with consecutive_skips := 0 })
  else if s.consecutive_skips < s.max_skip then
    (true, { s with consecutive_skips := s.consecutive_skips + 1 })
  else
    (false, { s with consecutive_skips := 0 })

/-- `FrameSkipper.mark_frame_processed` at time `now`. -/
def FrameSkipper.mark_frame_processed (s : FrameSkipper) (now : ℚ) : FrameSkipper :=
  { s with last_frame_time := now, consecutive_skips := 0 }

/-! ## AdaptiveQualityController (core/gaming_mode.py, lines 220-274) -/

structure AdaptiveQualityController where
  target_fps : ℚ
  min_quality : ℤ
  max_quality : ℤ
  adjustment_interval : ℕ
  current_quality : ℤ
  frame_count : ℕ
  deriving Repr, DecidableEq

/-- `AdaptiveQualityController.__init__`; `current_quality = (min_quality + max_quality) // 2`
(Python floor division). -/
def mkAdaptiveQualityController (target_fps : ℚ) (min_quality max_quality : ℤ)
    (adjustment_interval : ℕ) : AdaptiveQualityController :=
  { target_fps := target_fps
    min_quality := min_quality
    max_quality := max_quality
    adjustment_interval := adjustment_interval
    current_quality := (min_quality + max_quality).fdiv 2
    frame_count := 0 }

/-- `AdaptiveQualityController.adjust(current_fps, cpu_usage)`: returns the new quality
and the updated object. -/
def AdaptiveQualityController.adjust (c : AdaptiveQualityController)
    (current_fps cpu_usage : ℚ) : ℤ × AdaptiveQualityController :=
  if current_fps < c.target_fps * (85/100) then
    let q := max c.min_quality (c.current_quality - 5)
    (q, { c with current_quality := q })
  else if current_fps ≥ c.target_fps * (95/100) ∧ cpu_usage < 60 then
    let q := min c.max_quality (c.current_quality + 2)
    (q, { c with current_quality := q })
  else
    -- covers both the `elif cpu_usage > 80: pass` branch and the implicit fall-through
    (c.current_quality, c)

/-! ## FrameMetrics (core/gaming_mode.py, lines 101-153)

Only the fields touched by `add_frame` are modelled; the timing lists are kept to stay
faithful to the window-trimming behaviour. -/

structure FrameMetrics where
  window_size : ℕ
  frame_times : List ℚ
  capture_times : List ℚ
  encode_times : List ℚ
  network_times : List ℚ
  total_frames : ℕ
  dropped_frames : ℕ
  skipped_frames : ℕ
  deriving Repr, DecidableEq

/-- `FrameMetrics.__init__(window_size)`. -/
def mkFrameMetrics (window_size : ℕ) : FrameMetrics :=
  { window_size := window_size
    frame_times := [], capture_times := [], encode_times := [], network_times := []
    total_frames := 0, dropped_frames := 0, skipped_frames := 0 }

/-- `FrameMetrics.add_frame(capture_ms, encode_ms, network_ms, dropped, skipped)`. -/
def FrameMetrics.add_frame (m : FrameMetrics) (capture_ms encode_ms network_ms : ℚ)
    (dropped : Bool := false) (skipped : Bool := false) : FrameMetrics :=
  let total_ms := capture_ms + encode_ms + network_ms
  let ft := m.frame_times ++ [total_ms]
  let ct := m.capture_times ++ [capture_ms]
  let et := m.encode_times ++ [encode_ms]
  let nt := m.network_times ++ [network_ms]
  -- `if len(self.frame_times) > self.window_size: ... pop(0) ...`
  let trim : List ℚ → List ℚ := fun l => if ft.length > m.window_size then l.tail else l
  { m with
    frame_times := trim ft, capture_times := trim ct,
    encode_times := trim et, network_times := trim nt,
    total_frames := m.total_frames + 1
    dropped_frames := m.dropped_frames + (if dropped then 1 else 0)
    skipped_frames := m.skipped_frames + (if skipped then 1 else 0) }

/-- One recorded frame: the arguments of a single `add_frame` call. -/
structure FrameCall where
  capture_ms : ℚ
  encode_ms : ℚ
  network_ms : ℚ
  dropped : Bool
  skipped : Bool
  deriving Repr, DecidableEq

/-- Run a sequence of `add_frame` calls from a starting state. -/
def runFrames (m : FrameMetrics) (calls : List FrameCall) : FrameMetrics :=
  calls.foldl (fun acc c => acc.add_frame c.capture_ms c.encode_ms c.network_ms
    c.dropped c.skipped) m

/-- Number of processed frames in a call list: recorded with neither flag set. -/
def processedCount (calls : List FrameCall) : ℕ :=
  (calls.filter (fun c => !c.dropped && !c.skipped)).length

/-- Number of calls with the `dropped` flag. -/
def droppedCount (calls : List FrameCall) : ℕ :=
  (calls.filter (fun c => c.dropped)).length

/-- Number of calls with the `skipped` flag. -/
def skippedCount (calls : List FrameCall) : ℕ :=
  (calls.filter (fun c => c.skipped)).length

/-! ## The image resource cache (core/mcp_server.py, lines 176-200)

`_image_cache` is an `OrderedDict` mapping `resource_uri` to
`(image_data, mime_type, metadata)`; `image_data` is the base64 string produced by
`capture_screen`.  The `OrderedDict` is modelled as an association list whose head is
the oldest entry; assignment to an existing key replaces the value in place, a new key
is appended at the end.  The md5-derived `resource_uri` is passed in explicitly (the
hash itself is opaque; only the resulting key string matters to the cache). -/

/-- Metadata dict attached to a cached capture. -/
abbrev CacheMeta := List (String × String)

structure CacheEntry where
  image_data : List Char     -- base64 string (Python `str`)
  mime_type : String
  metadata : CacheMeta
  deriving Repr, DecidableEq

abbrev ImageCache := List (String × CacheEntry)

/-- `_MAX_CACHE_SIZE = 120`. -/
def MAX_CACHE_SIZE : ℕ := 120

/-- Keys of the cache, oldest first. -/
def cacheKeys (c : ImageCache) : List String := c.map Prod.fst

/-- Dict assignment `d[k] = v`: replace in place if the key exists, else append. -/
def odAssign (c : ImageCache) (k : String) (e : CacheEntry) : ImageCache :=
  if k ∈ cacheKeys c then
    c.map (fun p => if p.1 = k then (k, e) else p)
  else
    c ++ [(k, e)]

/-- `while len(_image_cache) > _MAX_CACHE_SIZE: _image_cache.popitem(last=False)`. -/
def evictOldest : ImageCache → ImageCache
  | [] => []
  | x :: t => if (x :: t).length > MAX_CACHE_SIZE then evictOldest t else x :: t

/-- `_add_to_cache`: insert under the (md5-derived) `resource_uri`, then evict from the
front while over capacity. -/
def add_to_cache (c : ImageCache) (resource_uri : String) (e : CacheEntry) : ImageCache :=
  evictOldest (odAssign c resource_uri e)

/-- Dict lookup `_image_cache[uri]` (as an `Option`): first binding for the key. -/
def cacheGet (uri : String) : ImageCache → Option CacheEntry
  | [] => none
  | p :: t => if p.1 = uri then some p.2 else cacheGet uri t

/-! ## Base64 (Python `base64.b64encode` / `base64.b64decode`)

Bytes are `ℕ` with an explicit `< 256` bound in the theorems.  The encoder processes
three bytes into four alphabet characters, padding the final partial group with `=`;
the decoder inverts that, failing (`none`) on malformed input — the Python decoder
raises there, which the server code catches. -/

def b64Alphabet : List Char :=
  "ABCDEFGHIJKLMNOPQRSTUVWXYZabcdefghijklmnopqrstuvwxyz0123456789+/".data

/-- Alphabet character for a 6-bit index. -/
def b64alpha (n : ℕ) : Char := b64Alphabet.getD n '?'

/-- `base64.b64encode` on a byte list. -/
def b64encodeList : List ℕ → List Char
  | [] => []
  | [a] => [b64alpha (a / 4), b64alpha (a % 4 * 16), '=', '=']
  | [a, b] => [b64alpha (a / 4), b64alpha (a % 4 * 16 + b / 16), b64alpha (b % 16 * 4), '=']
  | a :: b :: c :: rest =>
      b64alpha (a / 4) :: b64alpha (a % 4 * 16 + b / 16) ::
      b64alpha (b % 16 * 4 + c / 64) :: b64alpha (c % 64) :: b64encodeList rest

/-- Index of a character in the base64 alphabet. -/
def b64decChar (ch : Char) : Option ℕ :=
  b64Alphabet.findIdx? (fun c => c = ch)

/-- `base64.b64decode` on a character list (strict: `none` on malformed input). -/
def b64decodeList : List Char → Option (List ℕ)
  | [] => some []
  | c1 :: c2 :: c3 :: c4 :: rest =>
      if c3 = '=' ∧ c4 = '=' ∧ rest = [] then do
        let i1 ← b64decChar c1
        let i2 ← b64decChar c2
        pure [i1 * 4 + i2 / 16]
      else if c4 = '=' ∧ rest = [] then do
        let i1 ← b64decChar c1
        let i2 ← b64decChar c2
        let i3 ← b64decChar c3
        pure [i1 * 4 + i2 / 16, i2 % 16 * 16 + i3 / 4]
      else do
        let i1 ← b64decChar c1
        let i2 ← b64decChar c2
        let i3 ← b64decChar c3
        let i4 ← b64decChar c4
        let tl ← b64decodeList rest
        pure ((i1 * 4 + i2 / 16) :: (i2 % 16 * 16 + i3 / 4) :: (i3 % 4 * 64 + i4) :: tl)
  | _ => none

/-! ## WebSocket `resources/read` (core/mcp_websocket_server.py, lines 53-82 and 219-274)

`_process_mcp_request` on `resources/read` looks the URI up in `_image_cache`,
base64-decodes the stored string, calls `_send_binary_resource` (a text frame with the
metadata followed by a binary frame with the raw bytes), and returns the JSON-RPC
acknowledgment which the message loop sends as a further text frame.  The model
returns the list of frames sent, in order. -/

/-- `uri.startswith("screen://capture/")`, as a prefix test on the character lists. -/
def uriIsCapture (uri : String) : Bool :=
  "screen://capture/".data.isPrefixOf uri.data

/-- The `resource_metadata` text frame built by `_send_binary_resource`. -/
structure ResourceMetadataMsg where
  type : String
  uri : String
  mimeType : String
  size : ℕ
  metadata : CacheMeta
  deriving Repr, DecidableEq

/-- The JSON-RPC acknowledgment `result` for a binary read. -/
structure ReadAckResult where
  uri : String
  binary : Bool
  size : ℕ
  mimeType : String
  message : String
  deriving Repr, DecidableEq

/-- A JSON-RPC error object. -/
structure RpcError where
  code : ℤ
  message : String
  deriving Repr, DecidableEq

inductive WsMessage where
  | text_metadata : ResourceMetadataMsg → WsMessage
  | binaryFrame : List ℕ → WsMessage
  | ack : ReadAckResult → WsMessage
  | rpcError : RpcError → WsMessage
  deriving Repr, DecidableEq

/-- WebSocket `resources/read`: all messages the server sends for the request, in
order.  A URI that does not start with `screen://capture/` falls through the branch
and produces no response. -/
def wsResourcesRead (cache : ImageCache) (uri : String) : List WsMessage :=
  if uriIsCapture uri then
    match cacheGet uri cache with
    | none => [.rpcError ⟨-32000, "Resource not found: " ++ uri⟩]
    | some entry =>
      match b64decodeList entry.image_data with
      | none =>
        -- `base64.b64decode` raised; the surrounding `except` returns a -32000 error
        [.rpcError ⟨-32000, "Resource not found: invalid base64"⟩]
      | some bytes =>
        [ .text_metadata ⟨"resource_metadata", uri, entry.mime_type, bytes.length,
            entry.metadata⟩,
          .binaryFrame bytes,
          .ack ⟨uri, true, bytes.length, entry.mime_type, "Binary data sent separately"⟩ ]
  else []

/-! ## SSE `resources/read` (core/mcp_sse_server.py, lines 157-204) -/

inductive SseReadResponse where
  | result (uri mimeType : String) (blob : List Char)
  | rpcError (code : ℤ) (message : String)
  | noResponse
  deriving Repr, DecidableEq

/-- SSE `resources/read`: returns the cached base64 string inline as `blob`, or a
JSON-RPC error on a cache miss. -/
def sseResourcesRead (cache : ImageCache) (uri : String) : SseReadResponse :=
  if uriIsCapture uri then
    match cacheGet uri cache with
    | none => .rpcError (-32000) ("Resource not found: " ++ uri)
    | some entry => .result uri entry.mime_type entry.image_data
  else .noResponse

/-! ## Python keyword-argument binding

Several call sites in the repository pass keyword arguments that the callee's
signature does not declare; CPython raises `TypeError` when binding such a call,
before the body runs.  `pyKwargsOk` models that binding check: every keyword passed
must name a declared parameter. -/

def pyKwargsOk (declared passed : List String) : Bool :=
  passed.all (fun k => declared.contains k)

/-- Parameters of `ScreenCapture.capture_screen(self, monitor=0, region=None,
format="png", use_cache=True)` (core/screen_capture.py, line 70). -/
def captureScreenParamNames : List String := ["monitor", "region", "format", "use_cache"]

/-- Keywords passed by `capture_game_window` when it calls `capture_screen`
(core/mcp_server.py, lines 1243-1248): `monitor_id=0, region=..., format=...,
quality=...`. -/
def captureGameWindowCallKw : List String := ["monitor_id", "region", "format", "quality"]

/-- Keywords passed to `capture_screen` by `_auto_push_stream_frames`
(core/mcp_sse_server.py, lines 538-541): positional `monitor` plus `quality=...`. -/
def ssePushCaptureCallKw : List String := ["quality"]

/-- Parameters of `AdaptiveQualityController.__init__` (core/gaming_mode.py,
lines 223-229). -/
def adaptiveControllerParamNames : List String :=
  ["target_fps", "min_quality", "max_quality", "adjustment_interval"]

/-- Keywords passed when `_auto_push_stream_frames` constructs the controller
(core/mcp_sse_server.py, lines 498-503). -/
def ssePushAdaptiveCallKw : List String :=
  ["target_fps", "min_quality", "max_quality", "adjustment_step"]

/-! ## Window capture (core/window_capture.py) and `capture_game_window`
(core/mcp_server.py, lines 1200-1273) -/

structure WindowInfo where
  title : List Char
  pid : ℕ
  x : ℤ
  y : ℤ
  width : ℤ
  height : ℤ
  is_visible : Bool
  is_minimized : Bool
  deriving Repr, DecidableEq

/-- `_list_windows_win32(filter_visible)` over the OS window enumeration `enum`:
skips invisible windows (when filtering) and windows without a title. -/
def list_windows (enum : List WindowInfo) (filter_visible : Bool) : List WindowInfo :=
  enum.filter (fun w => (!filter_visible || w.is_visible) && !w.title.isEmpty)

/-- Python's `pattern in s` substring test on character lists. -/
def isSubstring (pattern : List Char) : List Char → Bool
  | [] => pattern.isEmpty
  | c :: rest => pattern.isPrefixOf (c :: rest) || isSubstring pattern rest

/-- `find_window_by_title(title_pattern, case_sensitive)`: first visible window whose
(possibly lowercased) title contains the (possibly lowercased) pattern as a substring. -/
def find_window_by_title (enum : List WindowInfo) (title_pattern : List Char)
    (case_sensitive : Bool) : Option WindowInfo :=
  let windows := list_windows enum true
  let pattern := if case_sensitive then title_pattern else title_pattern.map Char.toLower
  windows.find? (fun w =>
    isSubstring pattern (if case_sensitive then w.title else w.title.map Char.toLower))

/-- Result dict of `ScreenCapture.capture_screen` (only the keys each branch sets). -/
structure CaptureReturn where
  success : Bool
  image_data : Option (List Char)   -- base64 string, or None on failure
  message : Option String
  format : Option String
  size : Option ℕ
  deriving Repr, DecidableEq

/-- Result of the `capture_game_window` tool: either an `"Error: ..."` string or the
JSON success payload. -/
inductive GameCaptureResult where
  | errMsg (msg : String)
  | success (window_title : List Char) (window_pid : ℕ) (image_base64 : List Char)
      (format : String) (region : ℤ × ℤ × ℤ × ℤ)
  deriving Repr, DecidableEq

def GameCaptureResult.isSuccess : GameCaptureResult → Bool
  | .errMsg _ => false
  | .success _ _ _ _ _ => true

/-- `capture_game_window(window_title, format, quality, case_sensitive)`.

The tool finds the window, rejects minimized ones, then calls
`screen_capture.capture_screen(monitor_id=0, region=..., format=..., quality=...)`.
The callee declares neither `monitor_id` nor `quality`, so CPython raises `TypeError`
when binding the call; the tool's `except` clause turns that into an error string.
`captureOutcome` stands for what the capture would return if the call could bind. -/
def capture_game_window (enum : List WindowInfo) (window_title : List Char)
    (format : String) (case_sensitive : Bool)
    (captureOutcome : CaptureReturn) : GameCaptureResult :=
  match find_window_by_title enum window_title case_sensitive with
  | none => .errMsg "Error: Game window not found"
  | some w =>
    if w.is_minimized then .errMsg "Error: Window is minimized. Please restore it first."
    else if pyKwargsOk captureScreenParamNames captureGameWindowCallKw then
      if captureOutcome.success then
        .success w.title w.pid (captureOutcome.image_data.getD []) format
          (w.x, w.y, w.width, w.height)
      else .errMsg "Error: Failed to capture window"
    else
      .errMsg "Error: capture_screen() got an unexpected keyword argument"

/-! ## `ScreenCapture.capture_screen` and its short-TTL cache
(core/screen_capture.py, lines 70-145)

The per-instance `_capture_cache` maps a key built from `(monitor, region, format)` to
`(timestamp, result_dict)`; `_cache_ttl` is 100 ms.  `datetime.now()` is the explicit
`now : ℚ` (seconds).  The blocking `_capture_screen_sync` call is an oracle parameter:
`.ok bytes` for a successful capture, `.error msg` for any raised exception. -/

structure CaptureRegion where
  x : ℤ
  y : ℤ
  width : ℤ
  height : ℤ
  deriving Repr, DecidableEq

/-- Cache key `f"{monitor}_{region}_{format}"`, modelled by its components. -/
structure CapCacheKey where
  monitor : ℤ
  region : Option CaptureRegion
  format : String
  deriving Repr, DecidableEq

abbrev CapCache := List (CapCacheKey × ℚ × CaptureReturn)

/-- `_cache_ttl = timedelta(milliseconds=100)`, in seconds. -/
def capCacheTTL : ℚ := 1/10

/-- `_get_from_cache(key)`: the cached result if fresh; an expired entry is deleted. -/
def get_from_cache (key : CapCacheKey) (now : ℚ) (cache : CapCache) :
    Option CaptureReturn × CapCache :=
  match cache.find? (fun p => p.1 = key) with
  | some (_, t, data) =>
      if now - t < capCacheTTL then (some data, cache)
      else (none, cache.eraseP (fun p => p.1 = key))
  | none => (none, cache)

/-- Dict assignment for the capture cache (same semantics as `odAssign`). -/
def capAssign (cache : CapCache) (k : CapCacheKey) (v : ℚ × CaptureReturn) : CapCache :=
  if cache.any (fun p => p.1 = k) then
    cache.map (fun p => if p.1 = k then (k, v) else p)
  else
    cache ++ [(k, v)]

/-- Key of the first entry with the minimal timestamp (Python
`min(keys, key=lambda k: cache[k][0])`). -/
def firstMinKey (cache : CapCache) : Option CapCacheKey :=
  match cache with
  | [] => none
  | x :: xs => some ((xs.foldl (fun best y => if y.2.1 < best.2.1 then y else best) x).1)

/-- `_add_to_cache(key, data)` of `ScreenCapture`: store with timestamp, then if more
than 10 entries, delete the oldest-stamped one. -/
def capAddToCache (cache : CapCache) (k : CapCacheKey) (now : ℚ)
    (data : CaptureReturn) : CapCache :=
  let c := capAssign cache k (now, data)
  if c.length > 10 then
    match firstMinKey c with
    | some oldest => c.eraseP (fun p => p.1 = oldest)
    | none => c
  else c

/-- `ScreenCapture.capture_screen(monitor, region, format, use_cache)` at time `now`
with capture oracle `sync`.  Returns the result dict and the capture cache afterwards. -/
def captureScreen (cache : CapCache) (now : ℚ) (monitor : ℤ)
    (region : Option CaptureRegion) (format : String) (use_cache : Bool)
    (sync : Except String (List ℕ)) : CaptureReturn × CapCache :=
  let key : CapCacheKey := ⟨monitor, region, format⟩
  let lookup := if use_cache then get_from_cache key now cache else (none, cache)
  match lookup.1 with
  | some cached => (cached, lookup.2)
  | none =>
    match sync with
    | .error e =>
        (⟨false, none, some e, none, none⟩, lookup.2)
    | .ok bytes =>
        let result : CaptureReturn :=
          ⟨true, some (b64encodeList bytes), none, some format, some bytes.length⟩
        let cache' := if use_cache then capAddToCache lookup.2 key now result else lookup.2
        (result, cache')

/-! ## SSE auto-push producer (core/mcp_sse_server.py, lines 471-608)

The producer task constructs a `FrameSkipper`, a `FrameMetrics` and — when
`config.gaming_adaptive_quality` is enabled (its default is `True`) — an
`AdaptiveQualityController` with the keyword `adjustment_step=5`, which the
constructor does not declare; CPython raises `TypeError` there, outside the task's
`try`, killing the task.  Inside the loop, each non-skipped cycle calls
`screen_capture.capture_screen(monitor, quality=...)`; `capture_screen` declares no
`quality` parameter, so this also raises `TypeError`, which the task's generic
`except` turns into task exit.  `.error` models the task dying with an exception. -/

/-- A `notifications/resources/updated` message placed on every SSE client queue. -/
structure SseNotification where
  uri : String
  stream_id : String
  deriving Repr, DecidableEq

/-- One producer cycle of `_auto_push_stream_frames`, from task start: returns the
notifications broadcast during the cycle, or `.error` if the task died.
`captureOutcome` and `resource_uri` stand for the capture result and md5-derived URI
the unreachable continuation would use. -/
def sse_auto_push_first_cycle (adaptiveEnabled streamExists shouldSkip : Bool)
    (stream_id : String) (cache : ImageCache) (captureOutcome : CaptureReturn)
    (resource_uri : String) : Except String (List SseNotification × ImageCache) :=
  if adaptiveEnabled && !(pyKwargsOk adaptiveControllerParamNames ssePushAdaptiveCallKw) then
    .error "TypeError: AdaptiveQualityController got an unexpected keyword argument"
  else if !streamExists then
    .ok ([], cache)                      -- stream gone: loop exits, nothing broadcast
  else if shouldSkip then
    .ok ([], cache)                      -- frame skipped: no capture, no broadcast
  else if pyKwargsOk captureScreenParamNames ssePushCaptureCallKw then
    -- continuation as written in the source (unreachable: the call cannot bind)
    if captureOutcome.success then
      let cache' := add_to_cache cache resource_uri
        ⟨captureOutcome.image_data.getD [], "image/jpeg", []⟩
      .ok ([⟨resource_uri, stream_id⟩], cache')
    else
      .ok ([], cache)
  else
    .error "TypeError: capture_screen() got an unexpected keyword argument"

/-- Notifications actually delivered to subscriber queues by a cycle outcome. -/
def broadcastsOf (r : Except String (List SseNotification × ImageCache)) :
    List SseNotification :=
  match r with
  | .error _ => []
  | .ok (l, _) => l

/-- The quality-adjustment policy exactly as the specification words it:
below 0.85 × target, decrease by 5 clamped at the minimum; at ≥ 0.95 × target with
CPU below 60, increase by 2 clamped at the maximum; otherwise (including the
CPU > 80 row) hold. -/
def specAdjustedQuality (c : AdaptiveQualityController) (fps cpu : ℚ) : ℤ :=
  if fps < (85/100) * c.target_fps then max c.min_quality (c.current_quality - 5)
  else if fps ≥ (95/100) * c.target_fps ∧ cpu < 60 then
    min c.max_quality (c.current_quality + 2)
  else c.current_quality

/-- The quality invariant of the data model: `min_quality ≤ current_quality ≤ max_quality`. -/
def qualityInv (c : AdaptiveQualityController) : Prop :=
  c.min_quality ≤ c.current_quality ∧ c.current_quality ≤ c.max_quality

/-! # Theorems -/

/-- **C2 counterexample.**  The claim states `should_skip_frame` returns true iff
`(now − last_processed) > (1/target_fps) + skip_threshold` (strict) and
`consecutive_skips < max_consecutive_skips`.  With `target_fps = 1`,
`skip_threshold = 0`, `last_processed = 0`, at `now = 1` the elapsed time equals the
boundary exactly: strict `>` fails, yet the code (which tests `elapsed <
interval + threshold` and otherwise skips) returns true. -/
theorem frame_skipper_strict_boundary_false :
    ¬(((mkFrameSkipper 1 5 0 0).should_skip_frame 1).1 = true ↔
      ((1 : ℚ) - (mkFrameSkipper 1 5 0 0).last_frame_time >
          1 / (mkFrameSkipper 1 5 0 0).target_fps + (mkFrameSkipper 1 5 0 0).skip_threshold ∧
        (mkFrameSkipper 1 5 0 0).consecutive_skips < (mkFrameSkipper 1 5 0 0).max_skip)) := by
  simp only [mkFrameSkipper, FrameSkipper.should_skip_frame]
  norm_num

/-- **C2 (amended).**  For every `FrameSkipper` with `target_fps > 0` (and
`frame_interval` as the constructor computes it), `should_skip_frame` returns true iff
`(now − last_processed) ≥ (1/target_fps) + skip_threshold` — with `≥`, not strict `>` —
and `consecutive_skips < max_consecutive_skips`; when it returns true,
`consecutive_skips` is incremented; and `mark_frame_processed` sets `last_frame_time`
to now and resets `consecutive_skips` to 0. -/
theorem frame_skipper_spec (s : FrameSkipper) (now : ℚ)
    (_hfps : 0 < s.target_fps) (hint : s.frame_interval = 1 / s.target_fps) :
    ((s.should_skip_frame now).1 = true ↔
      (now - s.last_frame_time ≥ 1 / s.target_fps + s.skip_threshold ∧
        s.consecutive_skips < s.max_skip)) ∧
    ((s.should_skip_frame now).1 = true →
      (s.should_skip_frame now).2.consecutive_skips = s.consecutive_skips + 1) ∧
    (∀ t, (s.mark_frame_processed t).last_frame_time = t ∧
      (s.mark_frame_processed t).consecutive_skips = 0) := by
  refine ⟨?_, ?_, fun t => ⟨rfl, rfl⟩⟩ <;>
    simp only [FrameSkipper.should_skip_frame, hint] <;> split_ifs with h1 h2 <;>
      simp_all

/-- **C2 witness** for `frame_skipper_spec` at a concrete skipper and time. -/
theorem frame_skipper_spec_witness :
    ((mkFrameSkipper 2 5 0 0).should_skip_frame 10).1 = true :=
  (frame_skipper_spec (mkFrameSkipper 2 5 0 0) 10 (by norm_num [mkFrameSkipper]) rfl).1.mpr
    (by norm_num [mkFrameSkipper])

/-- **C3.**  `AdaptiveQualityController.adjust` implements exactly the adjustment
table of the specification (`specAdjustedQuality`), and returns the (possibly
unchanged) `current_quality` it stored. -/
theorem adjust_matches_spec (c : AdaptiveQualityController) (fps cpu : ℚ) :
    (c.adjust fps cpu).1 = specAdjustedQuality c fps cpu ∧
    (c.adjust fps cpu).2 = { c with current_quality := specAdjustedQuality c fps cpu } := by
  simp only [AdaptiveQualityController.adjust, specAdjustedQuality,
    mul_comm c.target_fps]
  split_ifs <;> simp_all

/-- **C8 counterexample.**  A single `add_frame` call with both `dropped = True` and
`skipped = True` increments `total_frames` once but both `dropped_frames` and
`skipped_frames`, so `total = processed + dropped + skipped` fails. -/
theorem frame_metrics_double_flag_false :
    ¬((runFrames (mkFrameMetrics 100) [⟨0, 0, 0, true, true⟩]).total_frames =
      processedCount [⟨0, 0, 0, true, true⟩] +
      (runFrames (mkFrameMetrics 100) [⟨0, 0, 0, true, true⟩]).dropped_frames +
      (runFrames (mkFrameMetrics 100) [⟨0, 0, 0, true, true⟩]).skipped_frames) := by
  decide

/-- `runFrames` unfolds one call at a time. -/
theorem runFrames_cons (m : FrameMetrics) (c : FrameCall) (cs : List FrameCall) :
    runFrames m (c :: cs) =
      runFrames (m.add_frame c.capture_ms c.encode_ms c.network_ms c.dropped c.skipped)
        cs := rfl

/-- One `add_frame` call moves the three counters as the flags dictate. -/
theorem add_frame_counters (m : FrameMetrics) (a b n : ℚ) (d s : Bool) :
    (m.add_frame a b n d s).total_frames = m.total_frames + 1 ∧
    (m.add_frame a b n d s).dropped_frames = m.dropped_frames + (if d then 1 else 0) ∧
    (m.add_frame a b n d s).skipped_frames = m.skipped_frames + (if s then 1 else 0) := by
  simp [FrameMetrics.add_frame]

/-- `droppedCount` over a cons. -/
theorem droppedCount_cons (c : FrameCall) (cs : List FrameCall) :
    droppedCount (c :: cs) = (if c.dropped then 1 else 0) + droppedCount cs := by
  cases h : c.dropped <;> simp [droppedCount, List.filter_cons, h, Nat.add_comm]

/-- `skippedCount` over a cons. -/
theorem skippedCount_cons (c : FrameCall) (cs : List FrameCall) :
    skippedCount (c :: cs) = (if c.skipped then 1 else 0) + skippedCount cs := by
  cases h : c.skipped <;> simp [skippedCount, List.filter_cons, h, Nat.add_comm]

/-- Counter totals of a run, from an arbitrary starting state. -/
theorem runFrames_counters (calls : List FrameCall) (m : FrameMetrics) :
    (runFrames m calls).total_frames = m.total_frames + calls.length ∧
    (runFrames m calls).dropped_frames = m.dropped_frames + droppedCount calls ∧
    (runFrames m calls).skipped_frames = m.skipped_frames + skippedCount calls := by
  induction calls generalizing m with
  | nil => simp [runFrames, droppedCount, skippedCount]
  | cons c cs ih =>
    obtain ⟨h1, h2, h3⟩ := ih (m.add_frame c.capture_ms c.encode_ms c.network_ms
      c.dropped c.skipped)
    obtain ⟨g1, g2, g3⟩ := add_frame_counters m c.capture_ms c.encode_ms c.network_ms
      c.dropped c.skipped
    refine ⟨?_, ?_, ?_⟩
    · rw [runFrames_cons, h1, g1, List.length_cons]; omega
    · rw [runFrames_cons, h2, g2, droppedCount_cons]; omega
    · rw [runFrames_cons, h3, g3, skippedCount_cons]; omega

/-- Calls with no double flag partition into processed, dropped and skipped. -/
theorem counts_partition (calls : List FrameCall)
    (h : ∀ c ∈ calls, ¬(c.dropped = true ∧ c.skipped = true)) :
    processedCount calls + droppedCount calls + skippedCount calls = calls.length := by
  induction calls with
  | nil => simp [processedCount, droppedCount, skippedCount]
  | cons c cs ih =>
    have hc := h c (by simp)
    have ih' := ih (fun x hx => h x (by simp [hx]))
    cases hd : c.dropped <;> cases hs : c.skipped <;>
      simp_all [processedCount, droppedCount, skippedCount, List.filter] <;> omega

/-- **C8 (amended).**  After any sequence of `add_frame` calls in which no frame is
recorded with both the `dropped` and the `skipped` flag, `total_frames` equals the
number of processed frames (neither flag) plus `dropped_frames` plus
`skipped_frames`.  (A call with both flags is counted once in `total_frames` but once
in each of the two failure counters, breaking the equation.) -/
theorem frame_metrics_partition (w : ℕ) (calls : List FrameCall)
    (h : ∀ c ∈ calls, ¬(c.dropped = true ∧ c.skipped = true)) :
    (runFrames (mkFrameMetrics w) calls).total_frames =
      processedCount calls + (runFrames (mkFrameMetrics w) calls).dropped_frames +
      (runFrames (mkFrameMetrics w) calls).skipped_frames := by
  obtain ⟨h1, h2, h3⟩ := runFrames_counters calls (mkFrameMetrics w)
  have hp := counts_partition calls h
  have e1 : (mkFrameMetrics w).total_frames = 0 := rfl
  have e2 : (mkFrameMetrics w).dropped_frames = 0 := rfl
  have e3 : (mkFrameMetrics w).skipped_frames = 0 := rfl
  rw [h1, h2, h3, e1, e2, e3]
  omega

/-- **C8 witness** for `frame_metrics_partition` on a concrete call sequence. -/
theorem frame_metrics_partition_witness :
    (runFrames (mkFrameMetrics 100) [⟨1, 2, 3, false, false⟩, ⟨0, 0, 0, true, false⟩]).total_frames =
      processedCount [⟨1, 2, 3, false, false⟩, ⟨0, 0, 0, true, false⟩] +
      (runFrames (mkFrameMetrics 100) [⟨1, 2, 3, false, false⟩, ⟨0, 0, 0, true, false⟩]).dropped_frames +
      (runFrames (mkFrameMetrics 100) [⟨1, 2, 3, false, false⟩, ⟨0, 0, 0, true, false⟩]).skipped_frames :=
  frame_metrics_partition 100 _ (by decide)

/-- **C9.**  For a controller constructed with `min_quality ≤ max_quality`, the
invariant `min_quality ≤ current_quality ≤ max_quality` holds initially (the start
value is the floor midpoint) and is preserved by every `adjust` call on every input. -/
theorem quality_invariant (tf : ℚ) (minq maxq : ℤ) (ai : ℕ) (h : minq ≤ maxq) :
    qualityInv (mkAdaptiveQualityController tf minq maxq ai) ∧
    (∀ c : AdaptiveQualityController, qualityInv c →
      ∀ fps cpu, qualityInv (c.adjust fps cpu).2) := by
  constructor
  · have h2 : (minq + maxq).fdiv 2 = (minq + maxq) / 2 :=
      Int.fdiv_eq_ediv _ (by norm_num)
    constructor <;> simp only [mkAdaptiveQualityController, qualityInv, h2] <;> omega
  · intro c hc fps cpu
    obtain ⟨hl, hr⟩ := hc
    simp only [AdaptiveQualityController.adjust, qualityInv]
    split_ifs <;> simp_all <;> omega

/-- **C9 witness** for `quality_invariant` at concrete construction parameters. -/
theorem quality_invariant_witness :
    qualityInv (mkAdaptiveQualityController 60 30 95 10) :=
  (quality_invariant 60 30 95 10 (by norm_num)).1

/-- **C4 (code bug).**  No SSE auto-push producer cycle ever places a
`notifications/resources/updated` message on any subscriber queue: with adaptive
quality enabled (the config default) the task dies constructing
`AdaptiveQualityController` with the undeclared keyword `adjustment_step`, and even
with it disabled the first non-skipped cycle dies calling
`capture_screen(monitor, quality=...)`, whose signature declares no `quality`
parameter. -/
theorem sse_auto_push_never_notifies (adaptiveEnabled streamExists shouldSkip : Bool)
    (stream_id : String) (cache : ImageCache) (cap : CaptureReturn) (uri : String) :
    broadcastsOf (sse_auto_push_first_cycle adaptiveEnabled streamExists shouldSkip
      stream_id cache cap uri) = [] := by
  have hadaptive : pyKwargsOk adaptiveControllerParamNames ssePushAdaptiveCallKw = false := by
    decide
  have hcapture : pyKwargsOk captureScreenParamNames ssePushCaptureCallKw = false := by
    decide
  cases adaptiveEnabled <;> cases streamExists <;> cases shouldSkip <;>
    simp [sse_auto_push_first_cycle, broadcastsOf, hadaptive, hcapture]

/-- **C5 counterexample.**  A `resources/read` for an uncached `screen://capture/...`
URI yields a JSON-RPC error with code -32000, not the -32001 (`ResourceNotFound`)
the claim states — on the WebSocket transport and on SSE alike. -/
theorem resources_read_miss_code_not_32001 :
    wsResourcesRead [] "screen://capture/0123456789ab" =
      [.rpcError ⟨-32000, "Resource not found: screen://capture/0123456789ab"⟩] ∧
    sseResourcesRead [] "screen://capture/0123456789ab" =
      .rpcError (-32000) ("Resource not found: screen://capture/0123456789ab") ∧
    (-32000 : ℤ) ≠ -32001 := by
  refine ⟨?_, ?_, by decide⟩ <;> rfl

/-- **C5 (amended).**  For every `resources/read` request (SSE or WebSocket) whose
URI starts with `screen://capture/` but is not in the image cache, the server returns
a JSON-RPC error with `error.code` -32000 and message `Resource not found: <uri>`
(the spec's -32001 `ResourceNotFound` code is never emitted). -/
theorem resources_read_miss_error (cache : ImageCache) (uri : String)
    (hpre : uriIsCapture uri = true)
    (hmiss : cacheGet uri cache = none) :
    wsResourcesRead cache uri =
      [.rpcError ⟨-32000, "Resource not found: " ++ uri⟩] ∧
    sseResourcesRead cache uri =
      .rpcError (-32000) ("Resource not found: " ++ uri) := by
  constructor <;> simp [wsResourcesRead, sseResourcesRead, hpre, hmiss]

/-- **C5 witness** for `resources_read_miss_error` at a concrete empty cache. -/
theorem resources_read_miss_error_witness :
    wsResourcesRead [] "screen://capture/cafe00000000" =
      [.rpcError ⟨-32000, "Resource not found: screen://capture/cafe00000000"⟩] :=
  (resources_read_miss_error [] "screen://capture/cafe00000000" rfl rfl).1

/-- **C7 (code bug).**  `capture_game_window` can never return a success result, for
any window enumeration, pattern, flags or capture outcome: the tool calls
`capture_screen(monitor_id=0, ..., quality=...)`, and `capture_screen` declares
neither a `monitor_id` nor a `quality` parameter, so the call raises `TypeError`,
which the tool's `except` clause converts into an error string. -/
theorem capture_game_window_never_succeeds (enum : List WindowInfo)
    (title_pattern : List Char) (format : String) (case_sensitive : Bool)
    (cap : CaptureReturn) :
    (capture_game_window enum title_pattern format case_sensitive cap).isSuccess =
      false := by
  have hkw : pyKwargsOk captureScreenParamNames captureGameWindowCallKw = false := by
    decide
  unfold capture_game_window
  cases find_window_by_title enum title_pattern case_sensitive with
  | none => rfl
  | some w =>
    cases hm : w.is_minimized <;> simp [hkw, hm, GameCaptureResult.isSuccess]

/-- Keys of a cons cell. -/
theorem cacheKeys_cons (p : String × CacheEntry) (t : ImageCache) :
    cacheKeys (p :: t) = p.1 :: cacheKeys t := rfl

/-- Keys are unchanged by the in-place map update of an existing key. -/
theorem cacheKeys_map_update (c : ImageCache) (k : String) (e : CacheEntry) :
    cacheKeys (c.map (fun p => if p.1 = k then (k, e) else p)) = cacheKeys c := by
  induction c with
  | nil => rfl
  | cons p t ih =>
    rw [List.map_cons]
    by_cases h : p.1 = k
    · rw [if_pos h, cacheKeys_cons, cacheKeys_cons, ih, h]
    · rw [if_neg h, cacheKeys_cons, cacheKeys_cons, ih]

/-- Keys after a dict assignment. -/
theorem cacheKeys_odAssign (c : ImageCache) (k : String) (e : CacheEntry) :
    cacheKeys (odAssign c k e) =
      if k ∈ cacheKeys c then cacheKeys c else cacheKeys c ++ [k] := by
  by_cases hmem : k ∈ cacheKeys c
  · rw [odAssign, if_pos hmem, if_pos hmem, cacheKeys_map_update]
  · rw [odAssign, if_neg hmem, if_neg hmem]
    simp [cacheKeys]

/-- Length after a dict assignment. -/
theorem length_odAssign (c : ImageCache) (k : String) (e : CacheEntry) :
    (odAssign c k e).length = if k ∈ cacheKeys c then c.length else c.length + 1 := by
  by_cases hmem : k ∈ cacheKeys c
  · rw [odAssign, if_pos hmem, if_pos hmem, List.length_map]
  · rw [odAssign, if_neg hmem, if_neg hmem]
    simp

/-- Lookup over an appended single binding. -/
theorem cacheGet_append_single (c : ImageCache) (k k' : String) (e : CacheEntry) :
    cacheGet k' (c ++ [(k, e)]) =
      match cacheGet k' c with
      | some v => some v
      | none => if k = k' then some e else none := by
  induction c with
  | nil => simp [cacheGet]
  | cons p t ih => by_cases hp : p.1 = k' <;> simp [cacheGet, hp, ih]

/-- Lookup misses keys not in the cache. -/
theorem cacheGet_eq_none_of_not_mem (c : ImageCache) (k : String)
    (h : k ∉ cacheKeys c) : cacheGet k c = none := by
  induction c with
  | nil => rfl
  | cons p t ih =>
    rw [cacheKeys_cons] at h
    have hp : p.1 ≠ k := fun hh => h (by rw [hh]; exact List.mem_cons_self _ _)
    have ht : k ∉ cacheKeys t := fun hh => h (List.mem_cons_of_mem _ hh)
    rw [cacheGet, if_neg hp, ih ht]

/-- Assignment makes the key fetch the new value. -/
theorem cacheGet_odAssign_self (c : ImageCache) (k : String) (e : CacheEntry) :
    cacheGet k (odAssign c k e) = some e := by
  by_cases hmem : k ∈ cacheKeys c
  · rw [odAssign, if_pos hmem]
    induction c with
    | nil => simp [cacheKeys] at hmem
    | cons p t ih =>
      rw [List.map_cons]
      by_cases hp : p.1 = k
      · rw [if_pos hp, cacheGet, if_pos rfl]
      · rw [cacheKeys_cons] at hmem
        have ht : k ∈ cacheKeys t := by
          rcases List.mem_cons.mp hmem with h1 | h2
          · exact absurd h1.symm hp
          · exact h2
        rw [if_neg hp, cacheGet, if_neg hp, ih ht]
  · rw [odAssign, if_neg hmem, cacheGet_append_single,
      cacheGet_eq_none_of_not_mem c k hmem]
    simp

/-- The in-place map update leaves every other key's lookup unchanged. -/
theorem cacheGet_map_update_other (t : ImageCache) (k : String) (e : CacheEntry)
    (k' : String) (h : k' ≠ k) :
    cacheGet k' (t.map (fun p => if p.1 = k then (k, e) else p)) = cacheGet k' t := by
  induction t with
  | nil => rfl
  | cons p r ih =>
    rw [List.map_cons]
    by_cases hp : p.1 = k
    · have hpk : p.1 ≠ k' := by rw [hp]; exact fun hh => h hh.symm
      rw [if_pos hp, cacheGet, cacheGet, if_neg (fun hh => h hh.symm), if_neg hpk, ih]
    · rw [if_neg hp, cacheGet, cacheGet]
      by_cases hpk : p.1 = k'
      · rw [if_pos hpk, if_pos hpk]
      · rw [if_neg hpk, if_neg hpk, ih]

/-- Assignment leaves every other key's lookup unchanged. -/
theorem cacheGet_odAssign_other (c : ImageCache) (k : String) (e : CacheEntry)
    (k' : String) (h : k' ≠ k) : cacheGet k' (odAssign c k e) = cacheGet k' c := by
  by_cases hmem : k ∈ cacheKeys c
  · rw [odAssign, if_pos hmem]
    exact cacheGet_map_update_other c k e k' h
  · rw [odAssign, if_neg hmem, cacheGet_append_single]
    cases hc : cacheGet k' c with
    | some v => rfl
    | none => rw [if_neg (fun hh => h hh.symm)]

/-- `evictOldest` does nothing at or below capacity. -/
theorem evictOldest_eq_self (c : ImageCache) (h : c.length ≤ MAX_CACHE_SIZE) :
    evictOldest c = c := by
  cases c with
  | nil => rfl
  | cons x t =>
    rw [evictOldest, if_neg (by omega)]

/-- One entry over capacity, `evictOldest` drops exactly the head. -/
theorem evictOldest_tail (c : ImageCache) (h : c.length = MAX_CACHE_SIZE + 1) :
    evictOldest c = c.tail := by
  cases c with
  | nil => simp [MAX_CACHE_SIZE] at h
  | cons x t =>
    rw [evictOldest, if_pos (by omega), List.tail_cons]
    exact evictOldest_eq_self t (by simp at h; omega)

/-- **C6.**  After every `_add_to_cache` insertion into a cache within capacity and
with distinct URIs: the cache stays within the 120-entry capacity, URIs stay
distinct, the inserted entry is fetchable under its URI; when the insertion does not
overflow (cache below capacity, or URI already present) every other URI's lookup is
unchanged; and when it would overflow, the evicted entry is exactly the
oldest-inserted (head) one and every URI other than the inserted and the evicted one
still fetches its old entry. -/
theorem add_to_cache_spec (c : ImageCache) (uri : String) (e : CacheEntry)
    (hlen : c.length ≤ MAX_CACHE_SIZE) (hnd : (cacheKeys c).Nodup) :
    (add_to_cache c uri e).length ≤ MAX_CACHE_SIZE ∧
    (cacheKeys (add_to_cache c uri e)).Nodup ∧
    cacheGet uri (add_to_cache c uri e) = some e ∧
    (¬(c.length = MAX_CACHE_SIZE ∧ uri ∉ cacheKeys c) →
      ∀ k, k ≠ uri → cacheGet k (add_to_cache c uri e) = cacheGet k c) ∧
    (c.length = MAX_CACHE_SIZE → uri ∉ cacheKeys c →
      add_to_cache c uri e = c.tail ++ [(uri, e)] ∧
      (∀ k, k ≠ uri → (∀ hd ∈ c.head?, hd.1 ≠ k) →
        cacheGet k (add_to_cache c uri e) = cacheGet k c)) := by
  by_cases hmem : uri ∈ cacheKeys c
  · -- assignment in place: no growth, never evicts
    have hL : (odAssign c uri e).length = c.length := by rw [length_odAssign, if_pos hmem]
    have hid : add_to_cache c uri e = odAssign c uri e := by
      rw [add_to_cache]
      exact evictOldest_eq_self _ (by omega)
    have hkeys : cacheKeys (odAssign c uri e) = cacheKeys c := by
      rw [cacheKeys_odAssign, if_pos hmem]
    refine ⟨?_, ?_, ?_, ?_, ?_⟩
    · rw [hid, hL]; exact hlen
    · rw [hid, hkeys]; exact hnd
    · rw [hid]; exact cacheGet_odAssign_self c uri e
    · intro _ k hk; rw [hid]; exact cacheGet_odAssign_other c uri e k hk
    · intro _ habs; exact absurd hmem habs
  · -- fresh key: appended at the end
    have hform : odAssign c uri e = c ++ [(uri, e)] := by
      rw [odAssign, if_neg hmem]
    by_cases hfull : c.length = MAX_CACHE_SIZE
    · -- insertion would exceed capacity: the head is evicted
      obtain ⟨p, t, rfl⟩ : ∃ p t, c = p :: t := by
        cases c with
        | nil => simp [MAX_CACHE_SIZE] at hfull
        | cons p t => exact ⟨p, t, rfl⟩
      have heq : add_to_cache (p :: t) uri e = t ++ [(uri, e)] := by
        rw [add_to_cache, hform, evictOldest_tail _ (by simp at hfull ⊢; omega)]
        rfl
      have hkt : uri ∉ cacheKeys t := by
        rw [cacheKeys_cons] at hmem
        exact fun hh => hmem (List.mem_cons_of_mem _ hh)
      have hndt : (cacheKeys t).Nodup := by
        rw [cacheKeys_cons] at hnd
        exact hnd.of_cons
      refine ⟨?_, ?_, ?_, ?_, ?_⟩
      · rw [heq]; simp at hfull ⊢; omega
      · rw [heq]
        show (cacheKeys (t ++ [(uri, e)])).Nodup
        have : cacheKeys (t ++ [(uri, e)]) = cacheKeys t ++ [uri] := by
          simp [cacheKeys]
        rw [this, List.nodup_append]
        exact ⟨hndt, List.nodup_singleton uri,
          by simpa [List.disjoint_singleton] using hkt⟩
      · rw [heq, cacheGet_append_single, cacheGet_eq_none_of_not_mem t uri hkt,
          if_pos rfl]
      · intro habs; exact absurd ⟨hfull, hmem⟩ habs
      · intro _ _
        refine ⟨heq, ?_⟩
        intro k hk hhd
        have hpk : p.1 ≠ k := hhd p rfl
        rw [heq, cacheGet_append_single, cacheGet, if_neg hpk]
        cases hkt2 : cacheGet k t with
        | some v => rfl
        | none => rw [if_neg (fun hh => hk hh.symm)]
    · -- below capacity: nothing evicted
      have hid : add_to_cache c uri e = c ++ [(uri, e)] := by
        rw [add_to_cache, hform]
        exact evictOldest_eq_self _ (by simp; omega)
      refine ⟨?_, ?_, ?_, ?_, ?_⟩
      · rw [hid]; simp; omega
      · rw [hid]
        have : cacheKeys (c ++ [(uri, e)]) = cacheKeys c ++ [uri] := by
          simp [cacheKeys]
        rw [this, List.nodup_append]
        exact ⟨hnd, List.nodup_singleton uri,
          by simpa [List.disjoint_singleton] using hmem⟩
      · rw [hid, cacheGet_append_single, cacheGet_eq_none_of_not_mem c uri hmem,
          if_pos rfl]
      · intro _ k hk
        rw [hid, cacheGet_append_single]
        cases hc : cacheGet k c with
        | some v => rfl
        | none => rw [if_neg (fun hh => hk hh.symm)]
      · intro habs; exact absurd habs hfull

/-- **C6 witness** for `add_to_cache_spec` at a small concrete cache. -/
theorem add_to_cache_spec_witness :
    cacheGet "screen://capture/b00000000002"
      (add_to_cache [("screen://capture/b00000000001", ⟨['A'], "image/png", []⟩)]
        "screen://capture/b00000000002" ⟨['B'], "image/jpeg", []⟩) =
      some ⟨['B'], "image/jpeg", []⟩ :=
  (add_to_cache_spec [("screen://capture/b00000000001", ⟨['A'], "image/png", []⟩)]
    "screen://capture/b00000000002" ⟨['B'], "image/jpeg", []⟩
    (by decide) (by decide)).2.2.1

/-- Decoding an alphabet character recovers its 6-bit index (all 64 cases). -/
theorem b64decChar_alpha_fin : ∀ i : Fin 64, b64decChar (b64alpha i.val) = some i.val := by
  decide

/-- Alphabet characters are never the padding character (all 64 cases). -/
theorem b64alpha_ne_pad_fin : ∀ i : Fin 64, b64alpha i.val ≠ '=' := by
  decide

theorem b64decChar_alpha (i : ℕ) (h : i < 64) : b64decChar (b64alpha i) = some i :=
  b64decChar_alpha_fin ⟨i, h⟩

theorem b64alpha_ne_pad (i : ℕ) (h : i < 64) : b64alpha i ≠ '=' :=
  b64alpha_ne_pad_fin ⟨i, h⟩

/-- Unfolding lemma for the decoder on a four-character group. -/
theorem b64decodeList_cons4 (c1 c2 c3 c4 : Char) (rest : List Char) :
    b64decodeList (c1 :: c2 :: c3 :: c4 :: rest) =
      if c3 = '=' ∧ c4 = '=' ∧ rest = [] then
        (b64decChar c1).bind (fun i1 => (b64decChar c2).bind (fun i2 =>
          some [i1 * 4 + i2 / 16]))
      else if c4 = '=' ∧ rest = [] then
        (b64decChar c1).bind (fun i1 => (b64decChar c2).bind (fun i2 =>
          (b64decChar c3).bind (fun i3 =>
          some [i1 * 4 + i2 / 16, i2 % 16 * 16 + i3 / 4])))
      else
        (b64decChar c1).bind (fun i1 => (b64decChar c2).bind (fun i2 =>
          (b64decChar c3).bind (fun i3 => (b64decChar c4).bind (fun i4 =>
          (b64decodeList rest).bind (fun tl =>
          some ((i1 * 4 + i2 / 16) :: (i2 % 16 * 16 + i3 / 4) ::
            (i3 % 4 * 64 + i4) :: tl)))))) :=
  rfl

/-- Decoding inverts encoding on byte lists. -/
theorem b64_roundtrip : ∀ (bs : List ℕ), (∀ x ∈ bs, x < 256) →
    b64decodeList (b64encodeList bs) = some bs
  | [], _ => rfl
  | [a], h => by
    have ha : a < 256 := h a (by simp)
    show b64decodeList
      [b64alpha (a / 4), b64alpha (a % 4 * 16), '=', '='] = some [a]
    rw [b64decodeList_cons4, if_pos ⟨rfl, rfl, rfl⟩,
      b64decChar_alpha (a / 4) (by omega), b64decChar_alpha (a % 4 * 16) (by omega)]
    show some [a / 4 * 4 + a % 4 * 16 / 16] = some [a]
    have : a / 4 * 4 + a % 4 * 16 / 16 = a := by omega
    rw [this]
  | [a, b], h => by
    have ha : a < 256 := h a (by simp)
    have hb : b < 256 := h b (by simp)
    show b64decodeList [b64alpha (a / 4), b64alpha (a % 4 * 16 + b / 16),
      b64alpha (b % 16 * 4), '='] = some [a, b]
    rw [b64decodeList_cons4,
      if_neg (fun hk => b64alpha_ne_pad (b % 16 * 4) (by omega) hk.1),
      if_pos ⟨rfl, rfl⟩, b64decChar_alpha (a / 4) (by omega),
      b64decChar_alpha (a % 4 * 16 + b / 16) (by omega),
      b64decChar_alpha (b % 16 * 4) (by omega)]
    show some [a / 4 * 4 + (a % 4 * 16 + b / 16) / 16,
      (a % 4 * 16 + b / 16) % 16 * 16 + b % 16 * 4 / 4] = some [a, b]
    have h1 : a / 4 * 4 + (a % 4 * 16 + b / 16) / 16 = a := by omega
    have h2 : (a % 4 * 16 + b / 16) % 16 * 16 + b % 16 * 4 / 4 = b := by omega
    rw [h1, h2]
  | a :: b :: c :: rest, h => by
    have ha : a < 256 := h a (by simp)
    have hb : b < 256 := h b (by simp)
    have hc : c < 256 := h c (by simp)
    have htl := b64_roundtrip rest (fun x hx => h x (by simp [hx]))
    show b64decodeList (b64alpha (a / 4) :: b64alpha (a % 4 * 16 + b / 16) ::
      b64alpha (b % 16 * 4 + c / 64) :: b64alpha (c % 64) :: b64encodeList rest) =
      some (a :: b :: c :: rest)
    rw [b64decodeList_cons4,
      if_neg (fun hk => b64alpha_ne_pad (b % 16 * 4 + c / 64) (by omega) hk.1),
      if_neg (fun hk => b64alpha_ne_pad (c % 64) (by omega) hk.1),
      b64decChar_alpha (a / 4) (by omega),
      b64decChar_alpha (a % 4 * 16 + b / 16) (by omega),
      b64decChar_alpha (b % 16 * 4 + c / 64) (by omega),
      b64decChar_alpha (c % 64) (by omega), htl]
    show some ((a / 4 * 4 + (a % 4 * 16 + b / 16) / 16) ::
      ((a % 4 * 16 + b / 16) % 16 * 16 + (b % 16 * 4 + c / 64) / 4) ::
      ((b % 16 * 4 + c / 64) % 4 * 64 + c % 64) :: rest) = some (a :: b :: c :: rest)
    have h1 : a / 4 * 4 + (a % 4 * 16 + b / 16) / 16 = a := by omega
    have h2 : (a % 4 * 16 + b / 16) % 16 * 16 + (b % 16 * 4 + c / 64) / 4 = b := by omega
    have h3 : (b % 16 * 4 + c / 64) % 4 * 64 + c % 64 = c := by omega
    rw [h1, h2, h3]

/-- **C1.**  For every URI in the image cache (whose stored data is the base64
encoding of image bytes `bs`), a WebSocket `resources/read` sends exactly three
messages, in order: a `resource_metadata` text frame whose `size` is the byte length
of the cached image, a binary frame holding exactly the bytes that were inserted
(the base64 decoding of the stored string), and a JSON-RPC acknowledgment with
`binary = true` and the same size and MIME type. -/
theorem ws_read_binary_triplet (cache : ImageCache) (uri : String) (bs : List ℕ)
    (mime : String) (md : CacheMeta)
    (hb : ∀ x ∈ bs, x < 256)
    (hpre : uriIsCapture uri = true)
    (hlook : cacheGet uri cache = some ⟨b64encodeList bs, mime, md⟩) :
    wsResourcesRead cache uri =
      [ .text_metadata ⟨"resource_metadata", uri, mime, bs.length, md⟩,
        .binaryFrame bs,
        .ack ⟨uri, true, bs.length, mime, "Binary data sent separately"⟩ ] := by
  rw [wsResourcesRead, if_pos hpre, hlook]
  show (match b64decodeList (b64encodeList bs) with
    | none => [WsMessage.rpcError ⟨-32000, "Resource not found: invalid base64"⟩]
    | some bytes =>
      [ WsMessage.text_metadata ⟨"resource_metadata", uri, mime, bytes.length, md⟩,
        WsMessage.binaryFrame bytes,
        WsMessage.ack ⟨uri, true, bytes.length, mime, "Binary data sent separately"⟩ ]) = _
  rw [b64_roundtrip bs hb]

/-- **C1 witness** for `ws_read_binary_triplet` at a concrete cache and image. -/
theorem ws_read_binary_triplet_witness :
    wsResourcesRead
      [("screen://capture/000000000000",
        ⟨b64encodeList [77, 0, 255], "image/png", []⟩)]
      "screen://capture/000000000000" =
      [ .text_metadata ⟨"resource_metadata", "screen://capture/000000000000",
          "image/png", 3, []⟩,
        .binaryFrame [77, 0, 255],
        .ack ⟨"screen://capture/000000000000", true, 3, "image/png",
          "Binary data sent separately"⟩ ] :=
  ws_read_binary_triplet _ _ [77, 0, 255] "image/png" [] (by decide) (by decide) rfl


/-- The lookup step of the short-TTL capture cache never adds entries: it returns
either the cache unchanged or the cache with the expired probed entry removed. -/
theorem get_from_cache_snd_sublist (k : CapCacheKey) (now : ℚ) (c : CapCache) :
    (get_from_cache k now c).2.Sublist c := by
  rw [get_from_cache]
  cases hf : c.find? (fun p => p.1 = k) with
  | none => exact List.Sublist.refl c
  | some x =>
    obtain ⟨k0, t, d⟩ := x
    show (if now - t < capCacheTTL then (some d, c)
      else (none, c.eraseP (fun p => p.1 = k))).2.Sublist c
    by_cases ht : now - t < capCacheTTL
    · rw [if_pos ht]
    · rw [if_neg ht]
      exact List.eraseP_sublist c

/-- Reduction of `_get_from_cache` on a stale hit: the entry is deleted. -/
theorem get_from_cache_stale (k : CapCacheKey) (now : ℚ) (c : CapCache)
    (k0 : CapCacheKey) (t : ℚ) (d : CaptureReturn)
    (hf : c.find? (fun p => p.1 = k) = some (k0, t, d))
    (ht : ¬(now - t < capCacheTTL)) :
    get_from_cache k now c = (none, c.eraseP (fun p => p.1 = k)) := by
  rw [get_from_cache, hf]
  show (if now - t < capCacheTTL then (some d, c)
    else (none, c.eraseP (fun p => p.1 = k))) = (none, c.eraseP (fun p => p.1 = k))
  rw [if_neg ht]

/-- **C10 counterexample.**  With `use_cache = true`, a stale entry under the probed
key, and a failing capture, `capture_screen` returns the failure dict but does *not*
leave the short-TTL cache unchanged: the expired entry is deleted during the lookup
(`del self._capture_cache[key]` in `_get_from_cache`). -/
theorem capture_screen_failure_mutates_cache :
    (captureScreen [(⟨0, none, "png"⟩, 0, ⟨true, some [], none, some "png", some 0⟩)]
        1 0 none "png" true (.error "boom")).1 =
      ⟨false, none, some "boom", none, none⟩ ∧
    (captureScreen [(⟨0, none, "png"⟩, 0, ⟨true, some [], none, some "png", some 0⟩)]
        1 0 none "png" true (.error "boom")).2 ≠
      [(⟨0, none, "png"⟩, 0, ⟨true, some [], none, some "png", some 0⟩)] := by
  have hstep : get_from_cache ⟨0, none, "png"⟩ 1
      [(⟨0, none, "png"⟩, 0, ⟨true, some [], none, some "png", some 0⟩)] =
      (none, []) := by
    rw [get_from_cache_stale ⟨0, none, "png"⟩ 1
      [(⟨0, none, "png"⟩, 0, ⟨true, some [], none, some "png", some 0⟩)]
      ⟨0, none, "png"⟩ 0 ⟨true, some [], none, some "png", some 0⟩ rfl
      (by rw [capCacheTTL]; norm_num)]
    rfl
  refine ⟨?_, ?_⟩ <;> simp [captureScreen, hstep]

/-- **C10 (amended).**  `capture_screen` is total (the model returns a result dict on
every input); whenever the executed capture fails (the underlying sync capture
raises and the cache did not serve a hit), it returns
`{"success": False, "message": <error>, "image_data": None}` and adds nothing to the
short-TTL capture cache — the cache afterwards is a sublist of the cache before,
though an expired entry under the probed key may have been deleted during lookup. -/
theorem capture_screen_failure_spec (cache : CapCache) (now : ℚ) (monitor : ℤ)
    (region : Option CaptureRegion) (format : String) (use_cache : Bool) (e : String)
    (hmiss : use_cache = true →
      (get_from_cache ⟨monitor, region, format⟩ now cache).1 = none) :
    (captureScreen cache now monitor region format use_cache (.error e)).1 =
      ⟨false, none, some e, none, none⟩ ∧
    (captureScreen cache now monitor region format use_cache (.error e)).2.Sublist
      cache := by
  by_cases hu : use_cache = true
  · subst hu
    have h := hmiss rfl
    constructor
    · simp [captureScreen, h]
    · simp only [captureScreen, ite_true, h]
      exact get_from_cache_snd_sublist _ now cache
  · have hfalse : use_cache = false := by
      cases use_cache
      · rfl
      · exact absurd rfl hu
    subst hfalse
    exact ⟨rfl, List.Sublist.refl cache⟩

/-- **C10 witness** for `capture_screen_failure_spec` on an empty cache. -/
theorem capture_screen_failure_spec_witness :
    (captureScreen [] 0 0 none "png" true (.error "boom")).1 =
      ⟨false, none, some "boom", none, none⟩ ∧
    (captureScreen [] 0 0 none "png" true (.error "boom")).2.Sublist [] :=
  capture_screen_failure_spec [] 0 0 none "png" true "boom" (fun _ => rfl)

end ScreenMonitor